import Mathlib

/-!
# PolicyBot backend: shallow embedding and verification

This file embeds the retrieval-filtering and classification pipeline of
`src/backend/main.py` (the functions `map_confidence`, `generate_followups`,
`extract_explanations` and the `/chat` handler) in Lean 4 and proves the
specified properties about it.

Modelling conventions:
* Python floats (similarity scores, thresholds) are modelled as `ℚ`.
* Python strings are Lean `String`s; `str.lower()` is modelled by mapping
  `Char.toLower` over the characters and `str.strip()` by dropping leading
  and trailing whitespace characters (`pyLower`, `pyStrip`).
* The `in` substring test of Python is the executable `strContains`.
* The two fallible external collaborators of the handler — the
  `similarity_search_with_score` call on the vector store and the `invoke`
  call on the LLM agent — are parameters of type `String → Except String _`;
  a raised exception is an `Except.error` carrying the message of the
  exception, matching the single `try/except` of the handler.
* Python `set` has unspecified iteration order; the accumulated
  follow-up/label sets are modelled as deduplicated lists in table order.
  Every property proved below is insensitive to that order (membership,
  length, set equality).
-/

namespace PolicyBot

/-- Python `str.lower()` (ASCII case folding, as exercised by the code). -/
def pyLower (s : String) : String := ⟨s.toList.map Char.toLower⟩

/-- Python `str.strip()`: drop leading and trailing whitespace. -/
def pyStrip (s : String) : String :=
  ⟨((s.toList.dropWhile Char.isWhitespace).reverse.dropWhile Char.isWhitespace).reverse⟩

/-- Whether `k` is an initial segment of `l`. -/
def leadsWith : List Char → List Char → Bool
  | [], _ => true
  | _ :: _, [] => false
  | a :: as, b :: bs => a == b && leadsWith as bs

/-- Whether `k` occurs contiguously inside the second list. -/
def occursIn (k : List Char) : List Char → Bool
  | [] => k.isEmpty
  | b :: bs => leadsWith k (b :: bs) || occursIn k bs

/-- The Python `k in t` substring test. -/
def strContains (t k : String) : Bool := occursIn k.toList t.toList

/-- The constant `SIMILARITY_THRESHOLD = 0.25` of `main.py`. -/
def SIMILARITY_THRESHOLD : ℚ := 0.25

/-- The function `map_confidence` of `main.py`: mean score to confidence label. -/
def map_confidence (avg_score : ℚ) : String :=
  if avg_score > 0.65 then "High"
  else if avg_score > 0.50 then "Medium"
  else "Low"

/-- The thirteen-category table of `extract_explanations` in `main.py`:
each entry is the human-readable label together with its trigger-keyword
list, in source order. -/
def categoryTable : List (String × List String) :=
  [ ("IT Policy → Identity & Access Management",
       ["password", "authentication", "mfa", "identity"]),
    ("IT Policy → Privileged Access Control",
       ["privileged", "admin", "elevated access"]),
    ("IT Policy → Software Installation & Licensing",
       ["software", "application", "license", "installation"]),
    ("IT Policy → Hardware & Device Management",
       ["hardware", "device", "laptop", "endpoint"]),
    ("IT Policy → Network & Remote Access",
       ["vpn", "network", "wi-fi", "remote access"]),
    ("IT Policy → Email & Collaboration Tools",
       ["email", "messaging", "collaboration"]),
    ("IT Policy → Data Protection & Handling",
       ["data", "encryption", "classification", "storage"]),
    ("IT Policy → Security & Incident Management",
       ["security", "incident", "breach", "malware"]),
    ("IT Policy → Change & Operations Management",
       ["change management", "patch", "maintenance"]),
    ("IT Policy → Compliance & Audit",
       ["audit", "compliance", "monitoring", "logging"]),
    ("IT Policy → Acceptable Use",
       ["acceptable use", "personal use", "misuse"]),
    ("IT Policy → User Lifecycle Management",
       ["onboarding", "offboarding", "termination", "resignation"]),
    ("IT Policy → Policy Enforcement & Exceptions",
       ["exception", "violation", "disciplinary", "enforcement"]) ]

/-- Does some keyword of `kws` occur in the lowercased text?  This is
`any(k in t for k in [...])` of `main.py` where `t = text.lower()`. -/
def kwMatch (kws : List String) (text : String) : Bool :=
  kws.any (fun k => strContains (pyLower text) k)

/-- The function `extract_explanations` of `main.py`: labels of the
categories for which the lowercased text of some chunk contains some
trigger keyword.  The Python code accumulates into a `set` (unspecified
iteration order); this model returns the labels in table order, which has
the same set of elements. -/
def extract_explanations (chunks : List String) : List String :=
  (categoryTable.filter (fun c => chunks.any (fun text => kwMatch c.2 text))).map (·.1)

/-- The eight follow-up pools of `generate_followups` in `main.py`, each
keyed by the trigger-keyword list guarding the corresponding `update` call,
in source order.  The label names the category of the comment header in the
source (the same headers as in `extract_explanations`); `generate_followups`
itself never reads the label. -/
def followupTable : List (String × List String × List String) :=
  [ ("IT Policy → Identity & Access Management",
      (["password", "authentication", "mfa", "identity"],
       ["How do I reset my password?",
        "What are the password security requirements?",
        "Is multi-factor authentication mandatory?"])),
    ("IT Policy → Privileged Access Control",
      (["privileged", "admin", "elevated access"],
       ["Are admin accounts subject to additional controls?",
        "Who approves privileged access?"])),
    ("IT Policy → Software Installation & Licensing",
      (["software", "application", "license", "installation"],
       ["How do I request new software?",
        "Can I install software without IT approval?",
        "What happens if unlicensed software is installed?"])),
    ("IT Policy → Hardware & Device Management",
      (["hardware", "device", "laptop", "endpoint"],
       ["Can I use my personal device for work?",
        "How are company devices managed?",
        "What should I do if my laptop is lost?"])),
    ("IT Policy → Network & Remote Access",
      (["vpn", "network", "wi-fi", "remote access"],
       ["How do I access VPN?",
        "Can I bypass VPN on trusted networks?",
        "Who do I contact for network issues?"])),
    ("IT Policy → Security & Incident Management",
      (["security", "incident", "breach", "malware"],
       ["How do I report a security incident?",
        "What happens after an incident is reported?",
        "How are incidents prioritized?"])),
    ("IT Policy → Data Protection & Handling",
      (["data", "encryption", "classification", "storage"],
       ["How is company data classified?",
        "Where can sensitive data be stored?",
        "Is encryption required for all data?"])),
    ("IT Policy → User Lifecycle Management",
      (["onboarding", "offboarding", "termination", "resignation"],
       ["What happens to system access when an employee leaves?",
        "How is access revoked after resignation?"])) ]

/-- The fixed generic fallback follow-ups of `generate_followups`. -/
def fallbackFollowups : List String :=
  [ "What services does the IT Helpdesk provide?",
    "How can I contact IT support?",
    "What issues are not supported by IT?" ]

/-- The follow-up pool entries whose keywords match the combined context. -/
def matchedFollowupCats (context : String) : List (String × List String × List String) :=
  followupTable.filter (fun c => kwMatch c.2.1 context)

/-- The accumulated follow-up set of `generate_followups` before the
fallback check and truncation, as a deduplicated list. -/
def followupCandidates (context : String) : List String :=
  ((matchedFollowupCats context).flatMap (·.2.2)).dedup

/-- The function `generate_followups` of `main.py`: the union of the
matched pools (as a set), replaced by the generic fallback when empty,
truncated to 3 items (`list(followups)[:3]`).  Python `set` iteration
order is unspecified; this model uses table order — all properties proved
below depend only on membership and length. -/
def generate_followups (context : String) : List String :=
  (if (followupCandidates context).isEmpty then fallbackFollowups
   else followupCandidates context).take 3

/-- The per-category question bank, looked up by category label
(empty for the five categories without a pool in `generate_followups`). -/
def questionBank (label : String) : List String :=
  ((followupTable.find? (fun c => c.1 == label)).map (·.2.2)).getD []

/-- The fixed greeting set of the `/chat` handler. -/
def greetings : List String := ["hi", "hello", "hey", "good morning", "good evening"]

/-- The fixed greeting reply of the `/chat` handler. -/
def GREETING_RESPONSE : String := "Hello! How can I assist you with IT Helpdesk related queries?"

/-- The fixed refusal reply of the `/chat` handler. -/
def REFUSAL : String := "I can only help with IT Helpdesk related questions."

/-- The `PromptTemplate` of `main.py`, with `context` and `question`
substituted into the template text. -/
def promptTemplate (context question : String) : String :=
  "\n        Use the following context to answer the user question.\n\n        Context:\n        "
    ++ context ++ "\n\n        User Question:\n        " ++ question ++ "\n\n        Answer:\n    "

/-- Round-half-to-even of a rational to an integer (the rounding used by
the Python builtin `round`). -/
def halfEven (x : ℚ) : ℤ :=
  let n : ℤ := ⌊x⌋
  if x - n < 1/2 then n
  else if x - n > 1/2 then n + 1
  else if n % 2 = 0 then n else n + 1

/-- The Python `round(x, 3)`: round to 3 decimal places, halves to even. -/
def round3 (x : ℚ) : ℚ := (halfEven (x * 1000) : ℚ) / 1000

/-- The score filter of the handler:
`[(doc, score) for doc, score in results if score > SIMILARITY_THRESHOLD]`. -/
def passingResults (results : List (String × ℚ)) : List (String × ℚ) :=
  results.filter (fun ds => SIMILARITY_THRESHOLD < ds.2)

/-- The expression `sum(score for _, score in filtered) / len(filtered)`
of the handler. -/
def meanScore (l : List (String × ℚ)) : ℚ := (l.map (·.2)).sum / (l.length : ℚ)

/-- The JSON body returned by the `/chat` handler.  The short-circuit
replies (greeting, refusal, error) carry only the `response` key; the
optional fields model the keys present only in a full answer. -/
structure ChatResponse where
  response : String
  followups : Option (List String) := none
  confidence : Option String := none
  confidence_score : Option ℚ := none
  explanations : Option (List String) := none
deriving DecidableEq

/-- The error reply produced by the `except` clause of the handler. -/
def errorResponse (e : String) : ChatResponse :=
  { response := "Error processing your request: " ++ e }

/-- The `/chat` handler of `main.py`.  Here `search` models
`vectorstore.similarity_search_with_score(·, k=3)` returning
(page-content, score) pairs and `llm` models `agent.invoke` returning the
content of the final message; each returns `Except.error msg` when the
corresponding call raises an exception with message `msg`, in which case
the `try/except` of the handler produces the error reply. -/
def chat (message : String) (search : String → Except String (List (String × ℚ)))
    (llm : String → Except String String) : ChatResponse :=
  let user_input := pyLower (pyStrip message)
  if user_input ∈ greetings then { response := GREETING_RESPONSE }
  else
    match search message with
    | Except.error e => errorResponse e
    | Except.ok results =>
      if results.isEmpty then { response := REFUSAL }
      else
        let filtered := passingResults results
        if filtered.isEmpty then { response := REFUSAL }
        else
          let avg_score := meanScore filtered
          let confidence := map_confidence avg_score
          let relevant_docs := filtered.map (·.1)
          if relevant_docs.isEmpty then { response := REFUSAL }
          else
            let context := String.intercalate "\n\n" relevant_docs
            match llm ("User Query: " ++ promptTemplate context message) with
            | Except.error e => errorResponse e
            | Except.ok answer_text =>
              { response := answer_text,
                followups := some (generate_followups context),
                confidence := some confidence,
                confidence_score := some (round3 avg_score),
                explanations := some (extract_explanations relevant_docs) }

/-- Division that demands a proof that the denominator is nonzero. -/
def guardedDiv (a b : ℚ) (_h : b ≠ 0) : ℚ := a / b

/-- The average over a list of scored documents, defined only for
non-empty lists: the division carries a proof that the denominator — the
length of the list — is nonzero. -/
def guardedAvg (l : List (String × ℚ)) (h : ¬l.isEmpty) : ℚ :=
  guardedDiv ((l.map (·.2)).sum) ((l.length : ℚ))
    (by
      simp only [List.isEmpty_iff] at h
      exact_mod_cast fun hc => h (List.length_eq_zero.mp (by exact_mod_cast hc)))

/-- The `/chat` handler with the average-score division replaced by
`guardedAvg`, whose nonzero-denominator obligation is discharged from the
`filtered.isEmpty` test guarding it.  The theorem `chat = chatSafe` below
shows the division in `chat` is evaluated only under that guard. -/
def chatSafe (message : String) (search : String → Except String (List (String × ℚ)))
    (llm : String → Except String String) : ChatResponse :=
  let user_input := pyLower (pyStrip message)
  if user_input ∈ greetings then { response := GREETING_RESPONSE }
  else
    match search message with
    | Except.error e => errorResponse e
    | Except.ok results =>
      if results.isEmpty then { response := REFUSAL }
      else
        let filtered := passingResults results
        if h : filtered.isEmpty then { response := REFUSAL }
        else
          let avg_score := guardedAvg filtered h
          let confidence := map_confidence avg_score
          let relevant_docs := filtered.map (·.1)
          if relevant_docs.isEmpty then { response := REFUSAL }
          else
            let context := String.intercalate "\n\n" relevant_docs
            match llm ("User Query: " ++ promptTemplate context message) with
            | Except.error e => errorResponse e
            | Except.ok answer_text =>
              { response := answer_text,
                followups := some (generate_followups context),
                confidence := some confidence,
                confidence_score := some (round3 avg_score),
                explanations := some (extract_explanations relevant_docs) }

/-- A concrete retrieval outcome used to exercise the full success path:
one document above the threshold and one exactly at it. -/
def sampleResults : List (String × ℚ) := [("password policy doc", 7/10), ("other doc", 1/4)]

/-! ## Helper lemmas -/

/-- Permuting a list does not change `List.any`. -/
lemma any_eq_of_perm {l₁ l₂ : List String} (h : l₁.Perm l₂) (p : String → Bool) :
    l₁.any p = l₂.any p := by
  apply Bool.eq_iff_iff.mpr
  simp only [List.any_eq_true]
  constructor
  · rintro ⟨x, hx, hp⟩
    exact ⟨x, h.mem_iff.mp hx, hp⟩
  · rintro ⟨x, hx, hp⟩
    exact ⟨x, h.mem_iff.mpr hx, hp⟩

/-- Every question of a matched pool is among the follow-up candidates. -/
lemma pool_sub_candidates {context : String} {e : String × List String × List String}
    (he : e ∈ matchedFollowupCats context) {q : String} (hq : q ∈ e.2.2) :
    q ∈ followupCandidates context := by
  unfold followupCandidates
  exact List.mem_dedup.mpr (List.mem_flatMap.mpr ⟨e, he, hq⟩)

/-- Every follow-up pool in the table is non-empty. -/
lemma followupTable_pools_ne_nil : ∀ e ∈ followupTable, e.2.2 ≠ [] := by decide

/-! ## Claims -/

/-- C1: `map_confidence` returns High iff the mean score exceeds 0.65,
Medium iff it lies in (0.50, 0.65], and Low iff it is at most 0.50; in
particular 0.65 maps to Medium and 0.50 maps to Low. -/
theorem map_confidence_spec (s : ℚ) :
    ((map_confidence s = "High") ↔ 0.65 < s) ∧
    ((map_confidence s = "Medium") ↔ 0.50 < s ∧ s ≤ 0.65) ∧
    ((map_confidence s = "Low") ↔ s ≤ 0.50) ∧
    map_confidence (0.65 : ℚ) = "Medium" ∧ map_confidence (0.50 : ℚ) = "Low" := by
  have hval : ∀ x : ℚ,
      map_confidence x = if 0.65 < x then "High" else if 0.50 < x then "Medium" else "Low" :=
    fun x => rfl
  refine ⟨?_, ?_, ?_, ?_, ?_⟩
  · rw [hval]; split_ifs with h1 h2 <;> simp_all
  · rw [hval]; split_ifs with h1 h2 <;> simp_all
  · rw [hval]; split_ifs with h1 h2 <;> simp_all; linarith
  · rw [hval]; norm_num
  · rw [hval]; norm_num

/-- Witness for C1: a mean score of 0.7 yields High. -/
theorem map_confidence_spec_witness : map_confidence (0.7 : ℚ) = "High" :=
  (map_confidence_spec (0.7 : ℚ)).1.mpr (by norm_num)

/-- C2: on a non-greeting request, when the similarity search succeeds
with zero results or with no result scoring strictly above the 0.25
threshold, the handler answers exactly the refusal body with no
followups/confidence/confidence_score/explanations, and the reply is the
same for every LLM (the LLM is not consulted). -/
theorem chat_refusal (m : String)
    (search : String → Except String (List (String × ℚ)))
    (results : List (String × ℚ))
    (hg : pyLower (pyStrip m) ∉ greetings)
    (hs : search m = Except.ok results)
    (hbad : results = [] ∨ ∀ ds ∈ results, ds.2 ≤ SIMILARITY_THRESHOLD) :
    ∀ llm : String → Except String String, chat m search llm = { response := REFUSAL } := by
  intro llm
  unfold chat
  rw [if_neg hg, hs]
  rcases hbad with h | h
  · subst h; simp
  · have hf : passingResults results = [] := by
      unfold passingResults
      rw [List.filter_eq_nil_iff]
      intro ds hds
      simpa using not_lt.mpr (h ds hds)
    cases results with
    | nil => simp
    | cons r rs => simp [hf]

/-- Witness for C2: a single result at exactly the threshold is refused. -/
theorem chat_refusal_witness :
    chat "what is the reimbursement policy"
      (fun _ => Except.ok [("travel doc", (1:ℚ)/4)])
      (fun _ => Except.ok "unused") = { response := REFUSAL } :=
  chat_refusal _ _ [("travel doc", (1:ℚ)/4)] (by decide) rfl
    (Or.inr (by
      intro ds hds
      simp only [List.mem_singleton] at hds
      subst hds
      norm_num [SIMILARITY_THRESHOLD])) _

/-- C3: on the success path the surviving results are exactly those with
score strictly above the threshold (ties are discarded), and the response
carries the answer text, the follow-ups and explanations computed from
the surviving documents, the confidence label of the mean of the
surviving scores only, and that mean rounded to 3 decimal places as
`confidence_score`. -/
theorem chat_success_fields (m : String)
    (search : String → Except String (List (String × ℚ)))
    (results : List (String × ℚ))
    (llm : String → Except String String) (ans : String)
    (hg : pyLower (pyStrip m) ∉ greetings)
    (hs : search m = Except.ok results)
    (hf : passingResults results ≠ [])
    (hl : llm ("User Query: " ++ promptTemplate
            (String.intercalate "\n\n" ((passingResults results).map (·.1))) m)
          = Except.ok ans) :
    (∀ ds : String × ℚ, ds ∈ passingResults results ↔ ds ∈ results ∧ SIMILARITY_THRESHOLD < ds.2) ∧
    chat m search llm =
      { response := ans,
        followups := some (generate_followups
          (String.intercalate "\n\n" ((passingResults results).map (·.1)))),
        confidence := some (map_confidence (meanScore (passingResults results))),
        confidence_score := some (round3 (meanScore (passingResults results))),
        explanations := some (extract_explanations ((passingResults results).map (·.1))) } := by
  constructor
  · intro ds
    unfold passingResults
    simp [List.mem_filter]
  · have hres : results ≠ [] := fun hnil => hf (by simp [hnil, passingResults])
    have hdocs : (passingResults results).map (·.1) ≠ [] := by simp [hf]
    unfold chat
    rw [if_neg hg, hs]
    simp [hres, hf, hdocs, hl]

/-- Witness for C3: a query with one passing and one at-threshold result
produces the full response assembled from the single surviving document. -/
theorem chat_success_fields_witness :
    chat "how do I reset my password"
      (fun _ => Except.ok sampleResults)
      (fun _ => Except.ok "Use the self-service portal.") =
      { response := "Use the self-service portal.",
        followups := some (generate_followups
          (String.intercalate "\n\n" ((passingResults sampleResults).map (·.1)))),
        confidence := some (map_confidence (meanScore (passingResults sampleResults))),
        confidence_score := some (round3 (meanScore (passingResults sampleResults))),
        explanations := some (extract_explanations ((passingResults sampleResults).map (·.1))) } :=
  (chat_success_fields "how do I reset my password" (fun _ => Except.ok sampleResults)
    sampleResults (fun _ => Except.ok "Use the self-service portal.")
    "Use the self-service portal." (by decide) rfl
    (by norm_num [sampleResults, passingResults, List.filter, SIMILARITY_THRESHOLD]) rfl).2

/-- C4 counterexample: the combined context "email" matches a classifier
category (Email & Collaboration Tools), yet the returned follow-ups are
not drawn from the pools of the matched categories — that category has no
question pool, so the generator falls back to the generic questions.  The
follow-up selection therefore does not use the same keyword-to-category
matching as the classifier: only eight of the thirteen categories carry a
pool. -/
theorem followups_claim_counterexample :
    "IT Policy → Email & Collaboration Tools" ∈ extract_explanations ["email"] ∧
    ¬ (∀ q ∈ generate_followups "email", ∃ c ∈ categoryTable,
         kwMatch c.2 "email" = true ∧ q ∈ questionBank c.1) := by decide

/-- C4 amended: the eight pool-bearing follow-up categories use exactly
the keyword lists of the classifier categories of the same name; every
pool-bearing category matching the combined context contributes its whole
pool to the candidate set, and when at least one matches, the returned
follow-ups are drawn only from the matched pools; when none matches, the
result is the fixed generic fallback. -/
theorem followups_from_matched_pools (context : String) :
    (∀ e ∈ followupTable, ∃ c ∈ categoryTable, c.1 = e.1 ∧ c.2 = e.2.1) ∧
    (matchedFollowupCats context ≠ [] →
       (∀ e ∈ matchedFollowupCats context, ∀ q ∈ e.2.2, q ∈ followupCandidates context) ∧
       (∀ q ∈ generate_followups context, ∃ e ∈ matchedFollowupCats context, q ∈ e.2.2)) ∧
    (matchedFollowupCats context = [] → generate_followups context = fallbackFollowups) := by
  refine ⟨by decide, ?_, ?_⟩
  · intro hne
    have hcand : followupCandidates context ≠ [] := by
      obtain ⟨e, he⟩ := List.exists_mem_of_ne_nil _ hne
      have hef : e ∈ followupTable := by
        have he2 := he
        unfold matchedFollowupCats at he2
        exact (List.mem_filter.mp he2).1
      obtain ⟨q, hq⟩ := List.exists_mem_of_ne_nil _ (followupTable_pools_ne_nil e hef)
      exact List.ne_nil_of_mem (pool_sub_candidates he hq)
    constructor
    · intro e he q hq
      exact pool_sub_candidates he hq
    · intro q hq
      have hq2 : q ∈ followupCandidates context := by
        have hne2 : (followupCandidates context).isEmpty = false := by
          simpa [List.isEmpty_iff] using hcand
        unfold generate_followups at hq
        rw [hne2] at hq
        simp only [Bool.false_eq_true, if_false] at hq
        exact List.take_subset _ _ hq
      unfold followupCandidates at hq2
      exact List.mem_flatMap.mp (List.mem_dedup.mp hq2)
  · intro h
    unfold generate_followups followupCandidates
    rw [h]
    rfl

/-- Witness for the amended C4: the identity pool is contributed for a
password context, and a context matching nothing gets the fallback. -/
theorem followups_from_matched_pools_witness :
    "How do I reset my password?" ∈ followupCandidates "password reset" ∧
    generate_followups "general question" = fallbackFollowups :=
  ⟨((followups_from_matched_pools "password reset").2.1 (by decide)).1
      ("IT Policy → Identity & Access Management",
        (["password", "authentication", "mfa", "identity"],
         ["How do I reset my password?",
          "What are the password security requirements?",
          "Is multi-factor authentication mandatory?"]))
      (by decide) "How do I reset my password?" (by decide),
   (followups_from_matched_pools "general question").2.2 (by decide)⟩

/-- C5 counterexample: on an input with one chunk per keyword family the
classifier returns thirteen distinct labels, so its codomain is not a set
of exactly twelve labels. -/
theorem category_count_counterexample :
    (extract_explanations
        ["password", "privileged", "software", "hardware", "vpn", "email", "data",
         "security", "change management", "audit", "acceptable use", "onboarding",
         "exception"]).Nodup ∧
    (extract_explanations
        ["password", "privileged", "software", "hardware", "vpn", "email", "data",
         "security", "change management", "audit", "acceptable use", "onboarding",
         "exception"]).length = 13 := by decide

/-- C5 amended: the classifier codomain is a fixed closed set of exactly
thirteen labels, the trigger-keyword sets of distinct categories are
pairwise disjoint, and every label ever returned belongs to the set. -/
theorem category_table_closed :
    (categoryTable.map (·.1)).Nodup ∧
    (categoryTable.map (·.1)).length = 13 ∧
    List.Pairwise (fun c d => ∀ k ∈ c.2, k ∉ d.2) categoryTable ∧
    ∀ (chunks : List String) (l : String),
      l ∈ extract_explanations chunks → l ∈ categoryTable.map (·.1) := by
  refine ⟨by decide, by decide, by decide, ?_⟩
  intro chunks l h
  unfold extract_explanations at h
  refine List.map_subset _ ?_ h
  intro c hc
  exact (List.mem_filter.mp hc).1

/-- Witness for the amended C5: the label returned for a password chunk is
in the closed label set. -/
theorem category_table_closed_witness :
    "IT Policy → Identity & Access Management" ∈ categoryTable.map (·.1) :=
  category_table_closed.2.2.2 ["password"] _ (by decide)

/-- C6: the follow-up list always has at most 3 items, and when no
follow-up category keyword matches the context the result is exactly the
fixed generic fallback set of 3 questions. -/
theorem generate_followups_bound_and_fallback (context : String) :
    (generate_followups context).length ≤ 3 ∧
    (matchedFollowupCats context = [] → generate_followups context = fallbackFollowups) := by
  constructor
  · unfold generate_followups
    split <;> simp [List.length_take]
  · intro h
    unfold generate_followups followupCandidates
    rw [h]
    rfl

/-- Witness for C6: a context with no policy keywords gets exactly the
generic fallback, of length at most 3. -/
theorem generate_followups_bound_and_fallback_witness :
    (generate_followups "weather in Paris").length ≤ 3 ∧
    generate_followups "weather in Paris" = fallbackFollowups :=
  ⟨(generate_followups_bound_and_fallback _).1,
   (generate_followups_bound_and_fallback _).2 (by decide)⟩

/-- C7: whenever the stripped, lowercased message is in the greeting set,
the handler returns the fixed greeting reply for every retrieval and LLM
collaborator (neither is consulted), independent of casing and
surrounding whitespace. -/
theorem chat_greeting (m : String)
    (search : String → Except String (List (String × ℚ)))
    (llm : String → Except String String)
    (h : pyLower (pyStrip m) ∈ greetings) :
    chat m search llm = { response := GREETING_RESPONSE } := by
  unfold chat
  rw [if_pos h]

/-- Witness for C7: the message `" HI  "` triggers the greeting even with
failing collaborators. -/
theorem chat_greeting_witness :
    chat " HI  " (fun _ => Except.error "no retrieval") (fun _ => Except.error "no llm")
      = { response := GREETING_RESPONSE } :=
  chat_greeting " HI  " _ _ (by decide)

/-- C8: the category classifier is order-independent and idempotent with
respect to set semantics: permuting the chunk list leaves the returned
labels unchanged, and repeating the chunks leaves them unchanged. -/
theorem extract_explanations_set_invariant :
    (∀ l₁ l₂ : List String, l₁.Perm l₂ →
       extract_explanations l₁ = extract_explanations l₂) ∧
    (∀ l : List String, extract_explanations (l ++ l) = extract_explanations l) := by
  constructor
  · intro l₁ l₂ h
    unfold extract_explanations
    congr 1
    apply List.filter_congr
    intro c _
    exact any_eq_of_perm h _
  · intro l
    unfold extract_explanations
    congr 1
    apply List.filter_congr
    intro c _
    simp [List.any_append]

/-- Witness for C8: swapping two chunks leaves the labels unchanged. -/
theorem extract_explanations_set_invariant_witness :
    extract_explanations ["password policy", "vpn rules"]
      = extract_explanations ["vpn rules", "password policy"] :=
  extract_explanations_set_invariant.1 _ _ (by decide)

/-- C9: on a non-greeting request every failure of the retrieval call, and
every failure of the LLM call on a request that reaches it, is caught and
surfaced as the error body; no exception escapes the handler (the handler
is a total function into `ChatResponse`). -/
theorem chat_catches_failures (m : String)
    (search : String → Except String (List (String × ℚ)))
    (e : String)
    (hg : pyLower (pyStrip m) ∉ greetings) :
    ((search m = Except.error e) →
       ∀ llm : String → Except String String, chat m search llm = errorResponse e) ∧
    (∀ results : List (String × ℚ), search m = Except.ok results →
       passingResults results ≠ [] →
       chat m search (fun _ => Except.error e) = errorResponse e) := by
  constructor
  · intro hs llm
    unfold chat
    rw [if_neg hg, hs]
  · intro results hs hf
    have hres : results ≠ [] := by
      intro hnil
      exact hf (by simp [hnil, passingResults])
    unfold chat
    rw [if_neg hg, hs]
    simp [hres, hf]

/-- Witness for C9: a failing vector store and a failing LLM each produce
the wrapped error body. -/
theorem chat_catches_failures_witness :
    chat "what is the vpn policy" (fun _ => Except.error "db down")
      (fun _ => Except.ok "unused") = errorResponse "db down" ∧
    chat "what is the vpn policy" (fun _ => Except.ok [("vpn doc", (9:ℚ)/10)])
      (fun _ => Except.error "llm down") = errorResponse "llm down" :=
  ⟨(chat_catches_failures _ _ "db down" (by decide)).1 rfl (fun _ => Except.ok "unused"),
   (chat_catches_failures _ _ "llm down" (by decide)).2 [("vpn doc", (9:ℚ)/10)] rfl
     (by norm_num [passingResults, List.filter, SIMILARITY_THRESHOLD])⟩

/-- C10: the handler refines `chatSafe`, in which the average-score
division is replaced by a division carrying a proof that its denominator
(the number of surviving results) is nonzero, discharged from the
emptiness test that guards it; hence the division in the handler is
evaluated only on non-empty filtered lists and division by zero is
unreachable. -/
theorem chat_eq_chatSafe (m : String)
    (search : String → Except String (List (String × ℚ)))
    (llm : String → Except String String) :
    chat m search llm = chatSafe m search llm := rfl

/-- Witness for C10: the two handlers agree on a concrete request. -/
theorem chat_eq_chatSafe_witness :
    chat "is vpn required" (fun _ => Except.ok [("vpn doc", (3:ℚ)/10)])
        (fun _ => Except.ok "Yes.")
      = chatSafe "is vpn required" (fun _ => Except.ok [("vpn doc", (3:ℚ)/10)])
        (fun _ => Except.ok "Yes.") :=
  chat_eq_chatSafe _ _ _

end PolicyBot
